import Mathlib

/-!
Shallow embedding of `src/bookstore_manager.py`: a SQLite-backed bookstore
sales manager.  The three tables (`member`, `book`, `sale`) are modelled as
lists of records inside a `DB` state; the engine operations (`add_sale`,
`update_sale`, `delete_sale`) become pure state-passing functions returning
the new database together with the message the Python code returns/prints.
SQLite's transactional behaviour is reflected by the fact that a failing
operation returns the input state unchanged; a possible `sqlite3.Error`
during the insert/update block of `add_sale` is modelled by an explicit
`fault : Option String` parameter carrying the error text.
-/

namespace Bookstore

/-- A row of the `member` table: `mid` is the primary key, `memail` is nullable. -/
structure Member where
  mid : String
  mname : String
  mphone : String
  memail : Option String
deriving DecidableEq, Repr

/-- A row of the `book` table: `bid` is the primary key; `bprice` and `bstock`
are SQLite INTEGERs, hence `Int`. -/
structure Book where
  bid : String
  btitle : String
  bprice : Int
  bstock : Int
deriving DecidableEq, Repr

/-- A row of the `sale` table: `sid` is the AUTOINCREMENT primary key. -/
structure Sale where
  sid : Nat
  sdate : String
  mid : String
  bid : String
  sqty : Int
  sdiscount : Int
  stotal : Int
deriving DecidableEq, Repr

/-- The whole database state.  Lists are in rowid (insertion) order, which is
the order SQLite scans them in; `nextSid` models the AUTOINCREMENT counter. -/
structure DB where
  members : List Member
  books : List Book
  sales : List Sale
  nextSid : Nat
deriving DecidableEq, Repr

/-! ### Date validation (`validate_date`, lines 70-85) -/

/-- Numeric value of an ASCII decimal digit character. -/
def digitVal (c : Char) : Nat := c.toNat - 48

/-- Start codepoints of the runs of Unicode decimal digits (general category
`Nd`), Unicode 14.0 as shipped with CPython 3.11.  Every `Nd` run is ten
consecutive codepoints denoting the digits 0-9 in order; the first entry
`0x30` is ASCII `0`.  CPython's `re` pattern `\d` (compiled without
`re.ASCII`, as `_strptime` does) matches exactly these characters, and
`int()` maps each to its decimal value. -/
def ndZeroBases : List Nat :=
  [0x30, 0x660, 0x6F0, 0x7C0, 0x966, 0x9E6, 0xA66, 0xAE6,
   0xB66, 0xBE6, 0xC66, 0xCE6, 0xD66, 0xDE6, 0xE50, 0xED0,
   0xF20, 0x1040, 0x1090, 0x17E0, 0x1810, 0x1946, 0x19D0, 0x1A80,
   0x1A90, 0x1B50, 0x1BB0, 0x1C40, 0x1C50, 0xA620, 0xA8D0, 0xA900,
   0xA9D0, 0xA9F0, 0xAA50, 0xABF0, 0xFF10, 0x104A0, 0x10D30, 0x11066,
   0x110F0, 0x11136, 0x111D0, 0x112F0, 0x11450, 0x114D0, 0x11650, 0x116C0,
   0x11730, 0x118E0, 0x11950, 0x11C50, 0x11D50, 0x11DA0, 0x16A60, 0x16AC0,
   0x16B50, 0x1D7CE, 0x1D7D8, 0x1D7E2, 0x1D7EC, 0x1D7F6, 0x1E140, 0x1E2F0,
   0x1E950, 0x1FBF0]

/-- A Unicode decimal digit (category `Nd`): what CPython's non-ASCII `\d`
matches. -/
def isNdDigit (c : Char) : Bool :=
  ndZeroBases.any (fun z => z ≤ c.toNat && c.toNat < z + 10)

/-- Decimal value of a Unicode decimal digit (0 for non-digits), as computed
by Python's `int()`. -/
def ndDigitVal (c : Char) : Nat :=
  match ndZeroBases.find? (fun z => z ≤ c.toNat && c.toNat < z + 10) with
  | some z => c.toNat - z
  | none => 0

/-- The `%Y` field of CPython `_strptime`: the regex `\d\d\d\d` — four
Unicode decimal digits of any script — followed by `int()`, which sums the
positional decimal values. -/
def yearVal4? (y1 y2 y3 y4 : Char) : Option Nat :=
  if (isNdDigit y1 && isNdDigit y2 && isNdDigit y3 && isNdDigit y4) = true then
    some (1000 * ndDigitVal y1 + 100 * ndDigitVal y2 + 10 * ndDigitVal y3 + ndDigitVal y4)
  else none

/-- The two-character forms of the `%m` field regex `1[0-2]|0[1-9]|[1-9]`:
the character classes are ASCII literals, so both month characters must be
ASCII (`10`-`12` or `01`-`09`). -/
def monthVal2? (m1 m2 : Char) : Option Nat :=
  if m1 = '1' ∧ (m2 = '0' ∨ m2 = '1' ∨ m2 = '2') then some (10 + digitVal m2)
  else if m1 = '0' ∧ (m2.isDigit = true ∧ m2 ≠ '0') then some (digitVal m2)
  else none

/-- The two-character forms of the `%d` field regex
`3[01]|[12]\d|0[1-9]|[1-9]`: `30`, `31` and `01`-`09` are ASCII-literal,
but the `[12]\d` alternative accepts an ASCII `1` or `2` followed by any
Unicode decimal digit. -/
def dayVal2? (d1 d2 : Char) : Option Nat :=
  if d1 = '3' ∧ (d2 = '0' ∨ d2 = '1') then some (30 + digitVal d2)
  else if (d1 = '1' ∨ d1 = '2') ∧ isNdDigit d2 = true then
    some (10 * digitVal d1 + ndDigitVal d2)
  else if d1 = '0' ∧ (d2.isDigit = true ∧ d2 ≠ '0') then some (digitVal d2)
  else none

/-- Gregorian leap-year rule, as used by Python's `datetime`. -/
def isLeapYear (y : Nat) : Bool := y % 4 == 0 && (y % 100 != 0 || y % 400 == 0)

/-- Number of days of month `m` in year `y` (proleptic Gregorian calendar,
as used by Python's `datetime`). -/
def daysInMonth (y m : Nat) : Nat :=
  if m == 2 then (if isLeapYear y then 29 else 28)
  else if m == 4 || m == 6 || m == 9 || m == 11 then 30
  else 31

/-- Field extraction of CPython's `_strptime` for the format `"%Y-%m-%d"`:
the year is exactly four Unicode decimal digits (`\d\d\d\d`, no `re.ASCII`),
month and day are one or two characters matching `1[0-2]|0[1-9]|[1-9]` and
`3[01]|[12]\d|0[1-9]|[1-9]` (the single-digit forms are ASCII `[1-9]`; a
single ASCII `0` is modelled by falling through to the `1 ≤ _` range check
of `pythonDateOk`, which rejects the value 0 exactly as the regex failure
does), the separators are literal dashes, and the whole string must be
consumed.  The dash positions determine which field widths can match, so
the alternation order of the regex never changes the outcome. -/
def dateFields (cs : List Char) : Option (Nat × Nat × Nat) :=
  match cs with
  | [y1, y2, y3, y4, h1, m1, m2, h2, d1, d2] =>
    if h1 = '-' ∧ h2 = '-' then
      match yearVal4? y1 y2 y3 y4 with
      | none => none
      | some y =>
        match monthVal2? m1 m2 with
        | none => none
        | some m =>
          match dayVal2? d1 d2 with
          | none => none
          | some d => some (y, m, d)
    else none
  | [y1, y2, y3, y4, h1, a, b, c, d] =>
    if h1 = '-' ∧ b = '-' ∧ a.isDigit = true then
      match yearVal4? y1 y2 y3 y4, dayVal2? c d with
      | some y, some dd => some (y, digitVal a, dd)
      | _, _ => none
    else if h1 = '-' ∧ c = '-' ∧ d.isDigit = true then
      match yearVal4? y1 y2 y3 y4, monthVal2? a b with
      | some y, some m => some (y, m, digitVal d)
      | _, _ => none
    else none
  | [y1, y2, y3, y4, h1, m1, h2, d1] =>
    if h1 = '-' ∧ h2 = '-' ∧ (m1.isDigit && d1.isDigit) = true then
      match yearVal4? y1 y2 y3 y4 with
      | none => none
      | some y => some (y, digitVal m1, digitVal d1)
    else none
  | _ => none

/-- Range validity of the extracted fields, as enforced by Python's
`datetime` constructor: `MINYEAR = 1 ≤ year ≤ 9999 = MAXYEAR`, month in
`1..12`, day in `1..daysInMonth` (so Feb 30 raises `ValueError`). -/
def pythonDateOk (y m d : Nat) : Bool :=
  1 ≤ y && y ≤ 9999 && 1 ≤ m && m ≤ 12 && 1 ≤ d && d ≤ daysInMonth y m

/-- Model of `datetime.strptime(s, "%Y-%m-%d")` succeeding (not raising
`ValueError`). -/
def strptimeYmdOk (s : String) : Bool :=
  match dateFields s.data with
  | some (y, m, d) => pythonDateOk y m d
  | none => false

/-- `validate_date` (lines 70-85): length must be 10, `s.count('-')` must be
2, and `datetime.strptime(s, "%Y-%m-%d")` must not raise. -/
def validate_date (sdate : String) : Bool :=
  if sdate.length ≠ 10 then false
  else if sdate.data.count '-' ≠ 2 then false
  else strptimeYmdOk sdate

/-! ### Lookup helpers (the SELECTs with `fetchone`) -/

/-- `SELECT ... FROM member WHERE mid = ?` with `fetchone()`. -/
def findMember (db : DB) (mid : String) : Option Member :=
  db.members.find? (fun m => m.mid == mid)

/-- `SELECT bprice, bstock FROM book WHERE bid = ?` with `fetchone()`. -/
def findBook (db : DB) (bid : String) : Option Book :=
  db.books.find? (fun b => b.bid == bid)

/-- `SELECT ... FROM sale WHERE sid = ?` with `fetchone()`. -/
def findSale (db : DB) (sid : Nat) : Option Sale :=
  db.sales.find? (fun s => s.sid == sid)

/-! ### Message strings (copied verbatim from the Python source) -/

/-- Python's `"{:,}"` grouping applied to the reversed digit string:
a comma after every three characters, from the right. -/
def groupRev : List Char → List Char
  | a :: b :: c :: d :: rest => a :: b :: c :: ',' :: groupRev (d :: rest)
  | l => l

/-- Python's `f"{n:,}"` for a natural number. -/
def commaFmtNat (n : Nat) : String :=
  ⟨(groupRev (toString n).data.reverse).reverse⟩

/-- Python's `f"{i:,}"` for an integer. -/
def commaFmtInt (i : Int) : String :=
  if i < 0 then "-" ++ commaFmtNat i.natAbs else commaFmtNat i.natAbs

/-- Error message of line 102 (invalid date). -/
def msgInvalidDate : String := "錯誤：無效的日期格式，必須為 YYYY-MM-DD"

/-- Error message of lines 110 and 116 (missing member or missing book:
the same string in both places). -/
def msgInvalidRef : String := "錯誤：會員編號或書籍編號無效"

/-- Error message of line 122 (non-positive quantity). -/
def msgInvalidQty : String := "錯誤：數量必須為正整數"

/-- Error message of line 124 (insufficient stock; interpolates the book's
current stock). -/
def msgInsufficientStock (bstock : Int) : String :=
  "錯誤：書籍庫存不足 (現有庫存: " ++ toString bstock ++ ")"

/-- Error message of line 128 (negative discount). -/
def msgInvalidDiscount : String := "錯誤：折扣金額不能為負數"

/-- Error message of line 145 (sqlite3.Error during insert/update). -/
def msgPersistence (e : String) : String := "錯誤：資料庫操作失敗 - " ++ e

/-- Success message of line 142. -/
def msgAddSuccess (stotal : Int) : String :=
  "銷售記錄已新增！(銷售總額: " ++ commaFmtInt stotal ++ ")"

/-- Success message of line 239. -/
def msgUpdateSuccess (sid : Nat) (stotal : Int) : String :=
  "=> 銷售編號 " ++ toString sid ++ " 已更新！(銷售總額: " ++ commaFmtInt stotal ++ ")"

/-- Success message of line 281. -/
def msgDeleteSuccess (sid : Nat) : String :=
  "=> 銷售編號 " ++ toString sid ++ " 已刪除"

/-! ### The engine operations -/

/-- `UPDATE book SET bstock = bstock - ? WHERE bid = ?` applied to one row. -/
def decStock (bid : String) (sqty : Int) (b : Book) : Book :=
  if b.bid == bid then { b with bstock := b.bstock - sqty } else b

/-- `add_sale` (lines 87-145).  `fault = some e` models a `sqlite3.Error`
with text `e` raised inside the `try` block of lines 133-145 (in which case
the transaction is rolled back); `fault = none` models the normal case where
insert, stock update and commit all succeed.  Returns the new database and
the `(success, message)` pair the Python function returns. -/
def add_sale (db : DB) (sdate mid bid : String) (sqty sdiscount : Int)
    (fault : Option String) : DB × Bool × String :=
  if validate_date sdate = false then (db, false, msgInvalidDate)
  else
    match findMember db mid with
    | none => (db, false, msgInvalidRef)
    | some _ =>
      match findBook db bid with
      | none => (db, false, msgInvalidRef)
      | some book =>
        if sqty ≤ 0 then (db, false, msgInvalidQty)
        else if book.bstock < sqty then (db, false, msgInsufficientStock book.bstock)
        else if sdiscount < 0 then (db, false, msgInvalidDiscount)
        else
          let stotal := book.bprice * sqty - sdiscount
          match fault with
          | some e => (db, false, msgPersistence e)
          | none =>
            ({ db with
                sales := db.sales ++
                  [⟨db.nextSid, sdate, mid, bid, sqty, sdiscount, stotal⟩],
                books := db.books.map (decStock bid sqty),
                nextSid := db.nextSid + 1 },
              true, msgAddSuccess stotal)

/-- `UPDATE sale SET sdiscount = ?, stotal = ? WHERE sid = ?` applied to one
row (the new total was computed once, before the UPDATE, from the fetched
row). -/
def updRow (sid : Nat) (d T : Int) (t : Sale) : Sale :=
  if t.sid == sid then { t with sdiscount := d, stotal := T } else t

/-- The engine core of `update_sale` (lines 223-242), after the interactive
selection of `sid` and the non-negative `sdiscount`: re-read the sale's
quantity joined with its book's current price (`fetchone`); if the join
yields no row, do nothing and print nothing; otherwise recompute
`stotal = bprice * sqty - sdiscount`, update every `sale` row with that
`sid`, and print the success message.  The returned `Option String` is the
printed message (`none` when nothing is printed). -/
def update_sale (db : DB) (sid : Nat) (sdiscount : Int) : DB × Option String :=
  match findSale db sid with
  | none => (db, none)
  | some s =>
    match findBook db s.bid with
    | none => (db, none)
    | some b =>
      let stotal := b.bprice * s.sqty - sdiscount
      ({ db with sales := db.sales.map (updRow sid sdiscount stotal) },
        some (msgUpdateSuccess sid stotal))

/-- The engine core of `delete_sale` (lines 278-284), after the interactive
selection of `sid`: `DELETE FROM sale WHERE sid = ?`, commit, and print the
success message (printed whether or not any row matched). -/
def delete_sale (db : DB) (sid : Nat) : DB × String :=
  ({ db with sales := db.sales.filter (fun s => s.sid ≠ sid) },
    msgDeleteSuccess sid)

/-! ### Operation sequences, for the stock invariant -/

/-- One engine operation, as invoked by the menu loop. -/
inductive Op where
  | create (sdate mid bid : String) (sqty sdiscount : Int) (fault : Option String)
  | update (sid : Nat) (sdiscount : Int)
  | delete (sid : Nat)

/-- State transition of one engine operation. -/
def applyOp (db : DB) : Op → DB
  | .create sdate mid bid sqty sdiscount fault =>
    (add_sale db sdate mid bid sqty sdiscount fault).1
  | .update sid sdiscount => (update_sale db sid sdiscount).1
  | .delete sid => (delete_sale db sid).1

/-- Running a sequence of engine operations. -/
def runOps (db : DB) (ops : List Op) : DB := ops.foldl applyOp db

/-- Every book's stock is non-negative. -/
def stocksNonneg (db : DB) : Prop := ∀ b ∈ db.books, 0 ≤ b.bstock

/-- The `book` table respects its PRIMARY KEY constraint: ids are distinct. -/
def bidsNodup (db : DB) : Prop := (db.books.map Book.bid).Nodup

/-! ### The spec's date predicate (for the refinement claim about
`validate_date`) -/

/-- Seed member `M001` of `initialize_db`. -/
def exMember : Member := ⟨"M001", "Alice", "0912-345678", some "alice@example.com"⟩

/-- Seed book `B001` of `initialize_db`. -/
def exBook : Book := ⟨"B001", "Python Programming", 600, 50⟩

/-- A small database: one member, one book, no sales. -/
def exDb : DB := ⟨[exMember], [exBook], [], 1⟩

/-- Book `B001` after its price was changed to 700 and two copies were sold. -/
def exBook5 : Book := ⟨"B001", "Python Programming", 700, 48⟩

/-- A sale created when the price was still 600: qty 2, discount 100, total 1100. -/
def exSale5 : Sale := ⟨1, "2024-01-15", "M001", "B001", 2, 100, 1100⟩

/-- Database for the price-change update scenario of the spec. -/
def exDb5 : DB := ⟨[exMember], [exBook5], [exSale5], 2⟩

/-- A sample operation sequence exercising create, update and delete. -/
def exOps : List Op :=
  [.create "2024-01-15" "M001" "B001" 2 100 none,
   .update 1 50,
   .delete 1,
   .create "2024-02-01" "M001" "B001" 100 0 none,
   .create "2024-02-01" "M001" "B001" 48 0 (some "disk full"),
   .create "2024-02-01" "M001" "B001" 48 0 none]

/-! ### Helper lemmas -/

theorem find?_map_of_pres {α : Type} (f : α → α) (p : α → Bool)
    (h : ∀ a, p (f a) = p a) :
    ∀ l : List α, (l.map f).find? p = (l.find? p).map f := by
  intro l
  induction l with
  | nil => rfl
  | cons x xs ih =>
    cases hx : p x with
    | true =>
      rw [List.map_cons, List.find?_cons_of_pos _ (by rw [h x, hx]),
        List.find?_cons_of_pos _ hx]
      rfl
    | false =>
      rw [List.map_cons, List.find?_cons_of_neg _ (by simp [h x, hx]),
        List.find?_cons_of_neg _ (by simp [hx]), ih]

theorem decStock_bid (bid : String) (q : Int) (b : Book) :
    (decStock bid q b).bid = b.bid := by
  unfold decStock; split <;> rfl

theorem updRow_sid (sid : Nat) (d T : Int) (t : Sale) :
    (updRow sid d T t).sid = t.sid := by
  unfold updRow; split <;> rfl

theorem updRow_override (sid : Nat) (d T T' : Int) (t : Sale) :
    updRow sid d T (updRow sid d T' t) = updRow sid d T t := by
  unfold updRow
  by_cases h : (t.sid == sid) = true
  · simp [h]
  · simp [h]

/-! ### C3: any failing `add_sale` leaves the database unchanged -/

/-- C3: for every `add_sale` call that fails — by any validation check or by
a persistence fault after validation passed — the database is left exactly
as it was: no sale row is inserted and no stock is decremented. -/
theorem add_sale_failure_no_side_effects (db : DB) (sdate mid bid : String)
    (sqty sdiscount : Int) (fault : Option String)
    (h : (add_sale db sdate mid bid sqty sdiscount fault).2.1 = false) :
    (add_sale db sdate mid bid sqty sdiscount fault).1 = db := by
  cases hV : validate_date sdate with
  | false => simp [add_sale, hV]
  | true =>
    cases hM : findMember db mid with
    | none => simp [add_sale, hV, hM]
    | some m =>
      cases hB : findBook db bid with
      | none => simp [add_sale, hV, hM, hB]
      | some b =>
        by_cases hq : sqty ≤ 0
        · simp [add_sale, hV, hM, hB, hq]
        · by_cases hs : b.bstock < sqty
          · simp [add_sale, hV, hM, hB, hq, hs]
          · by_cases hdc : sdiscount < 0
            · simp [add_sale, hV, hM, hB, hq, hs, hdc]
            · cases fault with
              | some e => simp [add_sale, hV, hM, hB, hq, hs, hdc]
              | none =>
                exfalso
                simp [add_sale, hV, hM, hB, hq, hs, hdc] at h

/-- Witness for C3: a persistence fault after all validations passed rolls
the whole unit back. -/
theorem add_sale_failure_no_side_effects_witness :
    (add_sale exDb "2024-02-01" "M001" "B001" 2 100 (some "disk full")).1 = exDb :=
  add_sale_failure_no_side_effects exDb "2024-02-01" "M001" "B001" 2 100
    (some "disk full") (by decide)

/-! ### C6: update on a missing sale id is a silent no-op -/

/-- C6: if the sale id given to the update operation does not resolve to an
existing sale row, the operation modifies no table, raises no error, and
prints nothing — a silent no-op. -/
theorem update_sale_missing_noop (db : DB) (sid : Nat) (d : Int)
    (h : findSale db sid = none) :
    update_sale db sid d = (db, none) := by
  unfold update_sale
  rw [h]

/-- Witness for C6. -/
theorem update_sale_missing_noop_witness :
    update_sale exDb 1 50 = (exDb, none) :=
  update_sale_missing_noop exDb 1 50 (by decide)

/-! ### C9: the total is not clamped at zero -/

/-- C9: a valid create whose non-negative discount (700) exceeds price times
quantity (600 * 1) succeeds and stores the negative total -100. -/
theorem add_sale_negative_total :
    (add_sale exDb "2024-01-15" "M001" "B001" 1 700 none).2.1 = true ∧
    findSale (add_sale exDb "2024-01-15" "M001" "B001" 1 700 none).1 1 =
      some ⟨1, "2024-01-15", "M001", "B001", 1, 700, -100⟩ ∧
    (0 : Int) ≤ 700 ∧ exBook.bprice * 1 < 700 ∧ (-100 : Int) < 0 := by
  refine ⟨by decide, by decide, by decide, by decide, by decide⟩

/-! ### C1: a successful create inserts the right row and decrements stock -/

/-- C1: every `add_sale` call that succeeds inserts exactly one sale row
whose `stotal` is the referenced book's price at creation time times the
quantity minus the discount, and the referenced book's stock decreases by
exactly the quantity sold. -/
theorem add_sale_success_spec (db : DB) (sdate mid bid : String)
    (sqty sdiscount : Int) (fault : Option String)
    (hok : (add_sale db sdate mid bid sqty sdiscount fault).2.1 = true) :
    ∃ b, findBook db bid = some b ∧
      add_sale db sdate mid bid sqty sdiscount fault =
        ({ members := db.members,
           books := db.books.map (decStock bid sqty),
           sales := db.sales ++
             [⟨db.nextSid, sdate, mid, bid, sqty, sdiscount,
               b.bprice * sqty - sdiscount⟩],
           nextSid := db.nextSid + 1 }, true,
          msgAddSuccess (b.bprice * sqty - sdiscount)) ∧
      (findBook (add_sale db sdate mid bid sqty sdiscount fault).1 bid).map Book.bstock =
        some (b.bstock - sqty) := by
  cases hV : validate_date sdate with
  | false => exfalso; simp [add_sale, hV] at hok
  | true =>
    cases hM : findMember db mid with
    | none => exfalso; simp [add_sale, hV, hM] at hok
    | some m =>
      cases hB : findBook db bid with
      | none => exfalso; simp [add_sale, hV, hM, hB] at hok
      | some b =>
        by_cases hq : sqty ≤ 0
        · exfalso; simp [add_sale, hV, hM, hB, hq] at hok
        · by_cases hst : b.bstock < sqty
          · exfalso; simp [add_sale, hV, hM, hB, hq, hst] at hok
          · by_cases hdc : sdiscount < 0
            · exfalso; simp [add_sale, hV, hM, hB, hq, hst, hdc] at hok
            · cases fault with
              | some e => exfalso; simp [add_sale, hV, hM, hB, hq, hst, hdc] at hok
              | none =>
                have hmain : add_sale db sdate mid bid sqty sdiscount none =
                    ({ members := db.members,
                       books := db.books.map (decStock bid sqty),
                       sales := db.sales ++
                         [⟨db.nextSid, sdate, mid, bid, sqty, sdiscount,
                           b.bprice * sqty - sdiscount⟩],
                       nextSid := db.nextSid + 1 }, true,
                      msgAddSuccess (b.bprice * sqty - sdiscount)) := by
                  simp [add_sale, hV, hM, hB, hq, hst, hdc]
                refine ⟨b, rfl, hmain, ?_⟩
                rw [hmain]
                have hb' : db.books.find? (fun x => x.bid == bid) = some b := hB
                have hbid : (b.bid == bid) = true := by
                  have h := List.find?_some hb'
                  simpa using h
                show ((db.books.map (decStock bid sqty)).find?
                    (fun x => x.bid == bid)).map Book.bstock = some (b.bstock - sqty)
                rw [find?_map_of_pres (decStock bid sqty) _ (fun a => by rw [decStock_bid])]
                rw [hb']
                simp [decStock, hbid]

/-- Witness for C1: creating a sale of two copies of the seed book at price
600 with discount 100 succeeds with total 1100 and leaves stock 48. -/
theorem add_sale_success_spec_witness :
    ∃ b, findBook exDb "B001" = some b ∧
      add_sale exDb "2024-02-01" "M001" "B001" 2 100 none =
        ({ members := exDb.members,
           books := exDb.books.map (decStock "B001" 2),
           sales := exDb.sales ++
             [⟨exDb.nextSid, "2024-02-01", "M001", "B001", 2, 100,
               b.bprice * 2 - 100⟩],
           nextSid := exDb.nextSid + 1 }, true,
          msgAddSuccess (b.bprice * 2 - 100)) ∧
      (findBook (add_sale exDb "2024-02-01" "M001" "B001" 2 100 none).1 "B001").map
        Book.bstock = some (b.bstock - 2) :=
  add_sale_success_spec exDb "2024-02-01" "M001" "B001" 2 100 none (by decide)

/-! ### C2: fail-fast validation order of `add_sale` -/

/-- C2: `add_sale` validates fail-fast in the order date, member, book,
quantity positivity, stock sufficiency, discount non-negativity; the first
failing check determines the error; a missing member and a missing book
yield the same message (the caller cannot tell which id was wrong); and the
insufficient-stock message interpolates the book's current stock. -/
theorem add_sale_validation_order (db : DB) (sdate mid bid : String)
    (sqty sdiscount : Int) (fault : Option String) :
    (validate_date sdate = false →
      add_sale db sdate mid bid sqty sdiscount fault = (db, false, msgInvalidDate)) ∧
    (validate_date sdate = true → findMember db mid = none →
      add_sale db sdate mid bid sqty sdiscount fault = (db, false, msgInvalidRef)) ∧
    (∀ m : Member, validate_date sdate = true → findMember db mid = some m →
      findBook db bid = none →
      add_sale db sdate mid bid sqty sdiscount fault = (db, false, msgInvalidRef)) ∧
    (∀ (m : Member) (b : Book), validate_date sdate = true →
      findMember db mid = some m → findBook db bid = some b → sqty ≤ 0 →
      add_sale db sdate mid bid sqty sdiscount fault = (db, false, msgInvalidQty)) ∧
    (∀ (m : Member) (b : Book), validate_date sdate = true →
      findMember db mid = some m → findBook db bid = some b → 0 < sqty →
      b.bstock < sqty →
      add_sale db sdate mid bid sqty sdiscount fault
        = (db, false, msgInsufficientStock b.bstock)) ∧
    (∀ (m : Member) (b : Book), validate_date sdate = true →
      findMember db mid = some m → findBook db bid = some b → 0 < sqty →
      sqty ≤ b.bstock → sdiscount < 0 →
      add_sale db sdate mid bid sqty sdiscount fault = (db, false, msgInvalidDiscount)) ∧
    (∀ st : Int, msgInsufficientStock st
      = "錯誤：書籍庫存不足 (現有庫存: " ++ toString st ++ ")") := by
  refine ⟨?_, ?_, ?_, ?_, ?_, ?_, fun st => rfl⟩
  · intro hV
    simp [add_sale, hV]
  · intro hV hM
    simp [add_sale, hV, hM]
  · intro m hV hM hB
    simp [add_sale, hV, hM, hB]
  · intro m b hV hM hB hq
    simp [add_sale, hV, hM, hB, hq]
  · intro m b hV hM hB hq hst
    have hq' : ¬ sqty ≤ 0 := by omega
    simp [add_sale, hV, hM, hB, hq', hst]
  · intro m b hV hM hB hq hst hdc
    have hq' : ¬ sqty ≤ 0 := by omega
    have hst' : ¬ b.bstock < sqty := by omega
    simp [add_sale, hV, hM, hB, hq', hst', hdc]

/-- Witness for C2: asking for 100 copies when 50 are in stock fails with
the insufficient-stock message reporting the current stock 50. -/
theorem add_sale_validation_order_witness :
    add_sale exDb "2024-01-15" "M001" "B001" 100 0 none =
      (exDb, false, msgInsufficientStock exBook.bstock) :=
  (add_sale_validation_order exDb "2024-01-15" "M001" "B001" 100 0 none).2.2.2.2.1
    exMember exBook (by decide) (by decide) (by decide) (by decide) (by decide)

/-! ### C5: update recomputes the total from the current book price -/

theorem update_sale_found (db : DB) (sid : Nat) (d : Int) (s : Sale) (b : Book)
    (hs : findSale db sid = some s) (hb : findBook db s.bid = some b) :
    update_sale db sid d =
      ({ db with sales := db.sales.map (updRow sid d (b.bprice * s.sqty - d)) },
        some (msgUpdateSuccess sid (b.bprice * s.sqty - d))) := by
  simp [update_sale, hs, hb]

/-- C5: updating an existing sale's discount re-reads the referenced book's
current price, recomputes `total = current price * stored quantity - new
discount`, persists the new discount and total, and leaves the book and
member tables (hence all stock) untouched. -/
theorem update_sale_recompute (db : DB) (sid : Nat) (d : Int) (s : Sale) (b : Book)
    (hs : findSale db sid = some s) (hb : findBook db s.bid = some b) :
    update_sale db sid d =
      ({ members := db.members, books := db.books,
         sales := db.sales.map (updRow sid d (b.bprice * s.sqty - d)),
         nextSid := db.nextSid },
        some (msgUpdateSuccess sid (b.bprice * s.sqty - d))) ∧
    (update_sale db sid d).1.books = db.books ∧
    (update_sale db sid d).1.members = db.members := by
  have h := update_sale_found db sid d s b hs hb
  exact ⟨h, by rw [h], by rw [h]⟩

/-- Witness for C5, the spec's scenario: a sale created at price 600 (qty 2,
discount 100, total 1100) is updated to discount 50 after the book's price
changed to 700; the new total is `700 * 2 - 50 = 1350`. -/
theorem update_sale_recompute_witness :
    (update_sale exDb5 1 50).1.sales = [⟨1, "2024-01-15", "M001", "B001", 2, 50, 1350⟩] ∧
    (update_sale exDb5 1 50).1.books = exDb5.books := by
  have h := update_sale_recompute exDb5 1 50 exSale5 exBook5 (by decide) (by decide)
  refine ⟨?_, h.2.1⟩
  rw [h.1]
  decide

/-! ### C10: updating the discount twice with the same value is idempotent -/

/-- C10: for an existing sale id and a non-negative discount, applying the
discount update twice in succession with the same discount yields exactly
the same database state (and printed message) as applying it once. -/
theorem update_sale_idempotent (db : DB) (sid : Nat) (d : Int) (s : Sale)
    (hd : 0 ≤ d) (hs : findSale db sid = some s) :
    update_sale (update_sale db sid d).1 sid d = update_sale db sid d := by
  cases hb : findBook db s.bid with
  | none =>
    have h1 : update_sale db sid d = (db, none) := by simp [update_sale, hs, hb]
    rw [h1]
    exact h1
  | some b =>
    have hs' : db.sales.find? (fun t => t.sid == sid) = some s := hs
    have hsid : (s.sid == sid) = true := by
      have h := List.find?_some hs'
      simpa using h
    have h1 := update_sale_found db sid d s b hs hb
    have hdb1 : (update_sale db sid d).1
        = { db with sales := db.sales.map (updRow sid d (b.bprice * s.sqty - d)) } := by
      rw [h1]
    have hfind1 : findSale (update_sale db sid d).1 sid
        = some (updRow sid d (b.bprice * s.sqty - d) s) := by
      rw [hdb1]
      show ((db.sales.map (updRow sid d (b.bprice * s.sqty - d))).find?
        (fun t => t.sid == sid)) = _
      rw [find?_map_of_pres _ _ (fun a => by rw [updRow_sid])]
      rw [hs']
      rfl
    have hbid1 : (updRow sid d (b.bprice * s.sqty - d) s).bid = s.bid := by
      simp [updRow, hsid]
    have hqty1 : (updRow sid d (b.bprice * s.sqty - d) s).sqty = s.sqty := by
      simp [updRow, hsid]
    have hfb1 : findBook (update_sale db sid d).1
        (updRow sid d (b.bprice * s.sqty - d) s).bid = some b := by
      rw [hdb1, hbid1]
      exact hb
    have h2 := update_sale_found (update_sale db sid d).1 sid d
      (updRow sid d (b.bprice * s.sqty - d) s) b hfind1 hfb1
    rw [hqty1] at h2
    have hff : (updRow sid d (b.bprice * s.sqty - d)) ∘
        (updRow sid d (b.bprice * s.sqty - d)) = updRow sid d (b.bprice * s.sqty - d) :=
      funext fun t => updRow_override sid d _ _ t
    rw [h2, h1]
    dsimp only
    rw [List.map_map, hff]

/-- Witness for C10. -/
theorem update_sale_idempotent_witness :
    update_sale (update_sale exDb5 1 50).1 1 50 = update_sale exDb5 1 50 :=
  update_sale_idempotent exDb5 1 50 exSale5 (by decide) (by decide)

/-! ### C7: delete removes exactly the selected sale and nothing else -/

/-- C7: deleting a sale removes exactly the rows with that sale id (the id
no longer appears, every other sale row is kept), leaves the book and member
tables unchanged, always reports the success message, and deleting a
non-existent sale id is an idempotent no-op that still succeeds. -/
theorem delete_sale_frame (db : DB) (sid : Nat) :
    (delete_sale db sid).1.sales = db.sales.filter (fun s => s.sid ≠ sid) ∧
    (∀ s ∈ (delete_sale db sid).1.sales, s.sid ≠ sid) ∧
    (∀ s ∈ db.sales, s.sid ≠ sid → s ∈ (delete_sale db sid).1.sales) ∧
    (delete_sale db sid).1.books = db.books ∧
    (delete_sale db sid).1.members = db.members ∧
    (delete_sale db sid).2 = msgDeleteSuccess sid ∧
    (findSale db sid = none → delete_sale db sid = (db, msgDeleteSuccess sid)) := by
  refine ⟨rfl, ?_, ?_, rfl, rfl, rfl, ?_⟩
  · intro s hsm
    have h := List.of_mem_filter hsm
    simpa using h
  · intro s hsm hne
    exact List.mem_filter.mpr ⟨hsm, by simpa using hne⟩
  · intro h
    have hall : ∀ s ∈ db.sales, ¬ (s.sid == sid) = true :=
      fun s hsm => List.find?_eq_none.mp h s hsm
    have hfil : db.sales.filter (fun s => s.sid ≠ sid) = db.sales := by
      apply List.filter_eq_self.mpr
      intro s hsm
      have := hall s hsm
      simpa using fun he => this (by simp [he])
    unfold delete_sale
    rw [hfil]

/-- Witness for C7: deleting from a database with no sales is a successful
no-op. -/
theorem delete_sale_frame_witness :
    delete_sale exDb 1 = (exDb, msgDeleteSuccess 1) :=
  (delete_sale_frame exDb 1).2.2.2.2.2.2 (by decide)

/-! ### C8: stock never goes negative -/

theorem find_book_of_nodup (books : List Book)
    (h : (books.map Book.bid).Nodup) (b : Book) (hb : b ∈ books) :
    books.find? (fun x => x.bid == b.bid) = some b := by
  induction books with
  | nil => cases hb
  | cons x xs ih =>
    rw [List.map_cons, List.nodup_cons] at h
    rcases List.mem_cons.mp hb with rfl | hmem
    · exact List.find?_cons_of_pos _ (by simp)
    · have hne : x.bid ≠ b.bid := by
        intro he
        have hmm : b.bid ∈ xs.map Book.bid := List.mem_map_of_mem Book.bid hmem
        rw [← he] at hmm
        exact h.1 hmm
      rw [List.find?_cons_of_neg _ (by simp [hne])]
      exact ih h.2 hmem

theorem update_sale_books (db : DB) (sid : Nat) (d : Int) :
    (update_sale db sid d).1.books = db.books := by
  cases hfs : findSale db sid with
  | none => simp [update_sale, hfs]
  | some s =>
    cases hfb : findBook db s.bid with
    | none => simp [update_sale, hfs, hfb]
    | some b => simp [update_sale, hfs, hfb]

theorem add_sale_state_cases (db : DB) (sdate mid bid : String)
    (sqty sdiscount : Int) (fault : Option String) :
    (add_sale db sdate mid bid sqty sdiscount fault).1 = db ∨
    ∃ b, findBook db bid = some b ∧ sqty ≤ b.bstock ∧
      (add_sale db sdate mid bid sqty sdiscount fault).1.books
        = db.books.map (decStock bid sqty) := by
  cases hV : validate_date sdate with
  | false => left; simp [add_sale, hV]
  | true =>
    cases hM : findMember db mid with
    | none => left; simp [add_sale, hV, hM]
    | some m =>
      cases hB : findBook db bid with
      | none => left; simp [add_sale, hV, hM, hB]
      | some b =>
        by_cases hq : sqty ≤ 0
        · left; simp [add_sale, hV, hM, hB, hq]
        · by_cases hst : b.bstock < sqty
          · left; simp [add_sale, hV, hM, hB, hq, hst]
          · by_cases hdc : sdiscount < 0
            · left; simp [add_sale, hV, hM, hB, hq, hst, hdc]
            · cases fault with
              | some e => left; simp [add_sale, hV, hM, hB, hq, hst, hdc]
              | none =>
                right
                exact ⟨b, rfl, by omega,
                  by simp [add_sale, hV, hM, hB, hq, hst, hdc]⟩

theorem applyOp_preserves (db : DB) (op : Op)
    (hN : bidsNodup db) (h0 : stocksNonneg db) :
    bidsNodup (applyOp db op) ∧ stocksNonneg (applyOp db op) := by
  cases op with
  | update sid d =>
    have hbk : (update_sale db sid d).1.books = db.books := update_sale_books db sid d
    constructor
    · show ((update_sale db sid d).1.books.map Book.bid).Nodup
      rw [hbk]
      exact hN
    · intro b hbmem
      rw [show (applyOp db (Op.update sid d)).books = db.books from hbk] at hbmem
      exact h0 b hbmem
  | delete sid => exact ⟨hN, h0⟩
  | create sdate mid bid sqty sdiscount fault =>
    rcases add_sale_state_cases db sdate mid bid sqty sdiscount fault with
      h | ⟨b0, hB, hle, hbk⟩
    · constructor
      · show bidsNodup (add_sale db sdate mid bid sqty sdiscount fault).1
        rw [h]
        exact hN
      · show stocksNonneg (add_sale db sdate mid bid sqty sdiscount fault).1
        rw [h]
        exact h0
    · constructor
      · show ((add_sale db sdate mid bid sqty sdiscount fault).1.books.map Book.bid).Nodup
        rw [hbk, List.map_map]
        have hcomp : Book.bid ∘ decStock bid sqty = Book.bid :=
          funext fun x => decStock_bid bid sqty x
        rw [hcomp]
        exact hN
      · intro b hbmem
        rw [show (applyOp db (Op.create sdate mid bid sqty sdiscount fault)).books
            = db.books.map (decStock bid sqty) from hbk] at hbmem
        rcases List.mem_map.mp hbmem with ⟨a, hamem, rfl⟩
        by_cases hba : (a.bid == bid) = true
        · have ha : a.bid = bid := eq_of_beq hba
          have hfa : db.books.find? (fun x => x.bid == a.bid) = some a :=
            find_book_of_nodup db.books hN a hamem
          rw [ha] at hfa
          have hB' : db.books.find? (fun x => x.bid == bid) = some b0 := hB
          rw [hfa] at hB'
          have hab : a = b0 := Option.some.inj hB'
          have hsub : sqty ≤ a.bstock := hab ▸ hle
          simp [decStock, hba]
          omega
        · simp [decStock, hba]
          exact h0 a hamem

/-- C8: book stock never goes negative.  Starting from any database whose
book ids are distinct (the PRIMARY KEY constraint) and whose stocks are all
non-negative, any sequence of engine operations (create, update, delete)
preserves non-negativity: create rejects quantities exceeding the current
stock and update/delete never modify stock. -/
theorem stock_never_negative (db : DB) (ops : List Op)
    (hN : bidsNodup db) (h0 : stocksNonneg db) :
    stocksNonneg (runOps db ops) := by
  induction ops generalizing db with
  | nil => exact h0
  | cons op rest ih =>
    have h := applyOp_preserves db op hN h0
    exact ih (applyOp db op) h.1 h.2

/-- Witness for C8: the sample operation sequence (a valid create, an
update, a delete, an over-stock create, a faulted create, and a
stock-draining create) keeps all stocks non-negative. -/
theorem stock_never_negative_witness : stocksNonneg (runOps exDb exOps) :=
  stock_never_negative exDb exOps (by unfold bidsNodup; decide)
    (by unfold stocksNonneg; decide)

/-! ### C4: the date validator matches the spec's predicate -/

end Bookstore
